import Mathlib

/-!
Verification of the visa-application backend (`backend/server.py`) against its
specification.  The Python routes are shallowly embedded as pure Lean
functions over an explicit database state `DB`; Mongo `find_one` becomes
`List.find?`, `update_one` becomes an update of the first matching record,
`$push` an append, `$pull` a filter.  Machine integers are modelled as `Int`
(Python integers are unbounded), timestamps as `Nat`, and bcrypt hashing as a
constructor of an abstract credential type.
-/

namespace CubaVisa

/-! ## Credentials and tokens -/

/-- A stored password credential.  `bhash pw` stands for a bcrypt hash of the
plaintext `pw` (recognized by `pwd_context`); `plain s` is a stored value that
is not a recognized hash (a legacy plaintext record). -/
inductive StoredCred where
  | bhash (pw : String)
  | plain (s : String)
deriving DecidableEq, Repr

/-- `verify_password` from the source: try the bcrypt verify first; if the
stored value is not a recognized hash, fall back to a plaintext comparison. -/
def verify_password (plain_password : String) (hashed_password : StoredCred) : Bool :=
  match hashed_password with
  | .bhash pw => plain_password == pw
  | .plain s => plain_password == s

/-- `get_password_hash` from the source: bcrypt-hash the password. -/
def get_password_hash (password : String) : StoredCred := .bhash password

/-- Python `str.startswith("$2")`, expressed over the character data so that
concrete instances evaluate. -/
def startsWithD2 (s : String) : Bool := s.data.take 2 == ['$', '2']

/-- Python `stored_password.startswith("$2")`: every bcrypt hash starts with
the `$2` marker; for an unrecognized stored value the literal string is
inspected. -/
def StoredCred.startsWithDollar2 : StoredCred → Bool
  | .bhash _ => true
  | .plain s => startsWithD2 s

/-- Python `credentials.password == stored_password` (string equality of the
presented plaintext with the stored value).  A plaintext never equals the
literal text of a bcrypt hash of anything, so the `bhash` case is `false`. -/
def StoredCred.eqLiteral (stored : StoredCred) (presented : String) : Bool :=
  match stored with
  | .bhash _ => false
  | .plain s => presented == s

/-- A bearer token as seen by `jwt.decode`: either malformed / wrongly signed
(`invalid`), or a well-signed payload carrying the optional `sub` (email),
optional `admin_id`, and the `exp` expiry timestamp. -/
inductive Token where
  | invalid
  | signed (sub : Option String) (admin_id : Option String) (exp : Nat)
deriving DecidableEq, Repr

/-- `ACCESS_TOKEN_EXPIRE_MINUTES = 60 * 24` from the source. -/
def ACCESS_TOKEN_EXPIRE_MINUTES : Nat := 60 * 24

/-- `create_access_token` from the source: encode `sub` and `admin_id` with an
expiry. -/
def create_access_token (sub admin_id : String) (exp : Nat) : Token :=
  .signed (some sub) (some admin_id) exp

/-! ## Fixed configuration tables -/

/-- The `EMBASSIES` dict from the source, as an association list. -/
def EMBASSIES : List (String × String) :=
  [("Cuba", "Embajada de Serbia en La Habana"),
   ("Rusia", "Embajada de Serbia en Moscú"),
   ("Egipto", "Embajada de Serbia en El Cairo"),
   ("default", "Consultar Embajada más cercana")]

/-- Python `dict.get(key, dflt)` over an association list. -/
def dictGet (table : List (String × String)) (key dflt : String) : String :=
  match table.find? (fun kv => kv.1 == key) with
  | some kv => kv.2
  | none => dflt

/-- The `EVISA_COUNTRIES` list from the source. -/
def EVISA_COUNTRIES : List String := ["Georgia", "Armenia", "India", "Dubai"]

/-- `get_visa_pickup_location` from the source: e-visa destinations get the
fixed notice; otherwise `EMBASSIES.get(user_residence, EMBASSIES["default"])`.
(The `"default"` key is present in the table, so the indexing never fails;
`""` is the unreachable fallback of the model.) -/
def get_visa_pickup_location (destination_country user_residence : String) : String :=
  if EVISA_COUNTRIES.contains destination_country then
    "E-Visa (Electrónica - No requiere recogida física)"
  else
    dictGet EMBASSIES user_residence (dictGet EMBASSIES "default" "")

/-- `get_embassy_location` from the source. -/
def get_embassy_location (country : String) : String :=
  dictGet EMBASSIES country (dictGet EMBASSIES "default" "")

/-! ## Data model -/

/-- The `User` model. -/
structure User where
  id : String
  email : String
  password_hash : StoredCred
  full_name : String
  phone : String
  passport_number : String
  country_of_residence : String := "Cuba"
  profile_image : Option String := none
  created_at : Nat := 0
  is_active : Bool := true
  email_verified : Bool := false
deriving DecidableEq, Repr

/-- The `Admin` model. -/
structure Admin where
  id : String
  email : String
  password_hash : StoredCred
  full_name : String
  is_active : Bool := true
  is_superadmin : Bool := false
  created_at : Nat := 0
  last_login : Option Nat := none
deriving DecidableEq, Repr

/-- The `VisaType` model (embedded in a destination). -/
structure VisaType where
  id : String
  name : String
  price : Int
  currency : String := "EUR"
  processing_time : String
  requirements : String := ""
deriving DecidableEq, Repr

/-- The `Destination` model. -/
structure Destination where
  id : String
  country : String
  country_code : String
  enabled : Bool := false
  image_url : String := ""
  visa_types : List VisaType := []
  requirements : String := ""
  message : String := "Muy pronto disponible"
  created_at : Nat := 0
deriving DecidableEq, Repr

/-- The `DocumentInfo` model (embedded in an application). -/
structure DocumentInfo where
  id : String
  name : String
  type : String
  uploaded_at : Nat := 0
  data : String
deriving DecidableEq, Repr

/-- The `VisaApplication` model. -/
structure VisaApplication where
  id : String
  user_id : String
  user_email : String
  user_name : String
  user_phone : String
  passport_number : String
  country_of_residence : String := "Cuba"
  destination_id : String
  destination_country : String
  visa_type_id : String
  visa_type_name : String
  price : Int
  deposit_paid : Int := 0
  total_paid : Int := 0
  status : String := "pendiente"
  progress_step : Int := 1
  documents : List DocumentInfo := []
  notes : String := ""
  admin_notes : String := ""
  embassy_location : String := ""
  created_at : Nat := 0
  updated_at : Nat := 0
deriving DecidableEq, Repr

/-- The document-store state: the four Mongo collections the embedded routes
touch. -/
structure DB where
  users : List User := []
  admins : List Admin := []
  destinations : List Destination := []
  applications : List VisaApplication := []
deriving DecidableEq, Repr

def emptyDB : DB := {}

/-- An HTTP error response: `HTTPException(status_code, detail)`. -/
structure ApiError where
  status_code : Nat
  detail : String
deriving DecidableEq, Repr

/-- Mongo `update_one`: apply `f` to the first element matching `p`, leave the
rest unchanged. -/
def updateFirst (p : α → Bool) (f : α → α) : List α → List α
  | [] => []
  | x :: xs => if p x then f x :: xs else x :: updateFirst p f xs

/-! ## Request bodies -/

structure UserUpdate where
  full_name : Option String := none
  phone : Option String := none
  country_of_residence : Option String := none
  profile_image : Option String := none
deriving DecidableEq, Repr

structure UserLogin where
  email : String
  password : String
deriving DecidableEq, Repr

structure AdminLogin where
  email : String
  password : String
deriving DecidableEq, Repr

structure AdminCreate where
  email : String
  password : String
  full_name : String
deriving DecidableEq, Repr

structure DestinationCreate where
  country : String
  country_code : String
  enabled : Bool := false
  image_url : String := ""
  requirements : String := ""
  message : String := "Muy pronto disponible"
deriving DecidableEq, Repr

/-- `DestinationUpdate`: note that it has no `country_code` field. -/
structure DestinationUpdate where
  country : Option String := none
  enabled : Option Bool := none
  image_url : Option String := none
  requirements : Option String := none
  message : Option String := none
deriving DecidableEq, Repr

/-- The payload of `add_visa_type` / `update_visa_type` (the `id` sent by the
client is ignored: `add_visa_type` mints a fresh one, `update_visa_type` never
writes it). -/
structure VisaTypeInput where
  name : String
  price : Int
  currency : String := "EUR"
  processing_time : String
  requirements : String := ""
deriving DecidableEq, Repr

structure ApplicationCreate where
  destination_id : String
  visa_type_id : String
  notes : Option String := some ""
deriving DecidableEq, Repr

structure ApplicationUpdate where
  status : Option String := none
  progress_step : Option Int := none
  admin_notes : Option String := none
  deposit_paid : Option Int := none
  total_paid : Option Int := none
deriving DecidableEq, Repr

structure DocumentUpload where
  file_name : String
  file_type : String
  file_data : String
deriving DecidableEq, Repr

/-! ## Authentication helpers -/

/-- `get_current_admin` from the source, the dependency guarding every
`/admin/*` route.  A missing bearer header is rejected by
`OAuth2PasswordBearer` (401 "Not authenticated"); a malformed / badly signed /
expired token raises `JWTError` (401); a payload without `sub`, or a `sub`
naming no stored admin, is 401; a deactivated admin is rejected with 400
"Admin desactivado". -/
def get_current_admin (now : Nat) (token : Option Token) (db : DB) : Except ApiError Admin :=
  match token with
  | none => .error ⟨401, "Not authenticated"⟩
  | some .invalid => .error ⟨401, "No se pudieron validar las credenciales"⟩
  | some (.signed sub _admin_id exp) =>
    if exp ≤ now then .error ⟨401, "No se pudieron validar las credenciales"⟩
    else
      match sub with
      | none => .error ⟨401, "No se pudieron validar las credenciales"⟩
      | some email =>
        match db.admins.find? (fun a => a.email == email) with
        | none => .error ⟨401, "No se pudieron validar las credenciales"⟩
        | some admin =>
          if !admin.is_active then .error ⟨400, "Admin desactivado"⟩
          else .ok admin

/-- `migrate_user_password` from the source: persist a bcrypt hash for the
user's credential. -/
def migrate_user_password (user_id : String) (plain_password : String) (db : DB) : DB :=
  { db with
      users := updateFirst (fun u => u.id == user_id)
        (fun u => { u with password_hash := get_password_hash plain_password }) db.users }

/-- `POST /admin/login` (`admin_login`).  On success the admin's `last_login`
is refreshed and a 24-hour token is issued.  Note: no password migration
happens here. -/
def admin_login (credentials : AdminLogin) (now : Nat) (db : DB) :
    Except ApiError Token × DB :=
  match db.admins.find? (fun a => a.email == credentials.email) with
  | none => (.error ⟨401, "Email o contraseña incorrectos"⟩, db)
  | some admin =>
    if !verify_password credentials.password admin.password_hash then
      (.error ⟨401, "Email o contraseña incorrectos"⟩, db)
    else
      let db' := { db with
          admins := updateFirst (fun a => a.id == admin.id)
            (fun a => { a with last_login := some now }) db.admins }
      (.ok (create_access_token admin.email admin.id (now + ACCESS_TOKEN_EXPIRE_MINUTES)), db')

/-- `POST /auth/login` (`login_user`).  Verifies the credential in either
format; on a plaintext match against a stored value not starting with `$2`,
migrates the stored credential to a bcrypt hash. -/
def login_user (credentials : UserLogin) (db : DB) : Except ApiError User × DB :=
  match db.users.find? (fun u => u.email == credentials.email) with
  | none => (.error ⟨401, "Credenciales incorrectas"⟩, db)
  | some user =>
    if !verify_password credentials.password user.password_hash then
      (.error ⟨401, "Credenciales incorrectas"⟩, db)
    else
      let stored_password := user.password_hash
      let db' :=
        if !stored_password.startsWithDollar2 && stored_password.eqLiteral credentials.password then
          migrate_user_password user.id credentials.password db
        else db
      (.ok user, db')

/-- `POST /admin/register` (`admin_register`): superadmin-only creation of a
new (non-super) admin. -/
def admin_register (now : Nat) (token : Option Token) (admin_data : AdminCreate)
    (fresh_id : String) (ts : Nat) (db : DB) : Except ApiError String × DB :=
  match get_current_admin now token db with
  | .error e => (.error e, db)
  | .ok current_admin =>
    if !current_admin.is_superadmin then
      (.error ⟨403, "Solo superadmin puede crear administradores"⟩, db)
    else
      match db.admins.find? (fun a => a.email == admin_data.email) with
      | some _ => (.error ⟨400, "Email ya registrado"⟩, db)
      | none =>
        let admin : Admin :=
          { id := fresh_id, email := admin_data.email,
            password_hash := get_password_hash admin_data.password,
            full_name := admin_data.full_name, is_active := true,
            is_superadmin := false, created_at := ts, last_login := none }
        (.ok admin.id, { db with admins := db.admins ++ [admin] })

/-- `PUT /user/{user_id}` (`update_user`).  The route declares no
authentication dependency: any caller naming an existing user id may patch the
profile. -/
def update_user (user_id : String) (update_data : UserUpdate) (db : DB) :
    Except ApiError User × DB :=
  match db.users.find? (fun u => u.id == user_id) with
  | none => (.error ⟨404, "Usuario no encontrado"⟩, db)
  | some _ =>
    let applyUpd := fun (u : User) =>
      let u := match update_data.full_name with | some v => { u with full_name := v } | none => u
      let u := match update_data.phone with | some v => { u with phone := v } | none => u
      let u := match update_data.country_of_residence with
               | some v => { u with country_of_residence := v } | none => u
      let u := match update_data.profile_image with
               | some v => { u with profile_image := some v } | none => u
      u
    let hasUpd := update_data.full_name.isSome || update_data.phone.isSome ||
                  update_data.country_of_residence.isSome || update_data.profile_image.isSome
    let db' := if hasUpd then
                 { db with users := updateFirst (fun u => u.id == user_id) applyUpd db.users }
               else db
    match db'.users.find? (fun u => u.id == user_id) with
    | none => (.error ⟨500, "unreachable"⟩, db')
    | some updated => (.ok updated, db')

/-! ## Destination routes -/

/-- `GET /destinations/country/{country_code}` (`get_destination_by_country`):
the lookup uppercases its argument. -/
def get_destination_by_country (country_code : String) (db : DB) :
    Except ApiError Destination :=
  match db.destinations.find? (fun d => d.country_code == country_code.toUpper) with
  | none => .error ⟨404, "Destino no encontrado"⟩
  | some d => .ok d

/-- `POST /admin/destinations` (`create_destination`): admin-gated; rejects a
duplicate (uppercased) country code; stores the code uppercased. -/
def create_destination (now : Nat) (token : Option Token) (dest_data : DestinationCreate)
    (fresh_id : String) (db : DB) : Except ApiError Destination × DB :=
  match get_current_admin now token db with
  | .error e => (.error e, db)
  | .ok _ =>
    match db.destinations.find? (fun d => d.country_code == dest_data.country_code.toUpper) with
    | some _ => (.error ⟨400, "Destino ya existe"⟩, db)
    | none =>
      let destination : Destination :=
        { id := fresh_id, country := dest_data.country,
          country_code := dest_data.country_code.toUpper,
          enabled := dest_data.enabled, image_url := dest_data.image_url,
          visa_types := [], requirements := dest_data.requirements,
          message := dest_data.message, created_at := now }
      (.ok destination, { db with destinations := db.destinations ++ [destination] })

/-- The `$set` built by `update_destination` (no `country_code` entry is ever
written). -/
def applyDestinationUpdate (update_data : DestinationUpdate) (d : Destination) : Destination :=
  let d := match update_data.country with | some v => { d with country := v } | none => d
  let d := match update_data.enabled with | some v => { d with enabled := v } | none => d
  let d := match update_data.image_url with | some v => { d with image_url := v } | none => d
  let d := match update_data.requirements with | some v => { d with requirements := v } | none => d
  let d := match update_data.message with | some v => { d with message := v } | none => d
  d

/-- `PUT /admin/destinations/{destination_id}` (`update_destination`). -/
def update_destination (now : Nat) (token : Option Token) (destination_id : String)
    (update_data : DestinationUpdate) (db : DB) : Except ApiError Destination × DB :=
  match get_current_admin now token db with
  | .error e => (.error e, db)
  | .ok _ =>
    match db.destinations.find? (fun d => d.id == destination_id) with
    | none => (.error ⟨404, "Destino no encontrado"⟩, db)
    | some _ =>
      let hasUpd := update_data.country.isSome || update_data.enabled.isSome ||
                    update_data.image_url.isSome || update_data.requirements.isSome ||
                    update_data.message.isSome
      let db' := if hasUpd then
                   { db with
                       destinations := updateFirst (fun d => d.id == destination_id)
                         (applyDestinationUpdate update_data) db.destinations }
                 else db
      match db'.destinations.find? (fun d => d.id == destination_id) with
      | none => (.error ⟨500, "unreachable"⟩, db')
      | some updated => (.ok updated, db')

/-- `POST /admin/destinations/{destination_id}/visa-types` (`add_visa_type`):
`$push` appends the freshly minted visa type. -/
def add_visa_type (now : Nat) (token : Option Token) (destination_id : String)
    (visa_data : VisaTypeInput) (fresh_id : String) (db : DB) :
    Except ApiError VisaType × DB :=
  match get_current_admin now token db with
  | .error e => (.error e, db)
  | .ok _ =>
    match db.destinations.find? (fun d => d.id == destination_id) with
    | none => (.error ⟨404, "Destino no encontrado"⟩, db)
    | some _ =>
      let visa_type : VisaType :=
        { id := fresh_id, name := visa_data.name, price := visa_data.price,
          currency := visa_data.currency, processing_time := visa_data.processing_time,
          requirements := visa_data.requirements }
      let db' := { db with
          destinations := updateFirst (fun d => d.id == destination_id)
            (fun d => { d with visa_types := d.visa_types ++ [visa_type] }) db.destinations }
      (.ok visa_type, db')

/-- `PUT /admin/destinations/{destination_id}/visa-types/{visa_type_id}`
(`update_visa_type`): `update_one` filters on both the destination id and
`visa_types.id`, so a destination without the visa type matches nothing; the
positional `$` operator rewrites the first embedded entry with that id.  The
route returns success either way. -/
def update_visa_type (now : Nat) (token : Option Token)
    (destination_id visa_type_id : String) (visa_data : VisaTypeInput) (db : DB) :
    Except ApiError String × DB :=
  match get_current_admin now token db with
  | .error e => (.error e, db)
  | .ok _ =>
    match db.destinations.find? (fun d => d.id == destination_id) with
    | none => (.error ⟨404, "Destino no encontrado"⟩, db)
    | some _ =>
      let db' := { db with
        destinations :=
          updateFirst
            (fun d => d.id == destination_id && d.visa_types.any (fun vt => vt.id == visa_type_id))
            (fun d => { d with
              visa_types :=
                updateFirst (fun vt => vt.id == visa_type_id)
                  (fun vt => { vt with
                    name := visa_data.name, price := visa_data.price,
                    currency := visa_data.currency,
                    processing_time := visa_data.processing_time,
                    requirements := visa_data.requirements }) d.visa_types })
            db.destinations }
      (.ok "Tipo de visa actualizado", db')

/-- `DELETE /admin/destinations/{destination_id}/visa-types/{visa_type_id}`
(`delete_visa_type`): no existence check at all; `$pull` removes every
embedded entry with the id from the first matching destination; success either
way. -/
def delete_visa_type (now : Nat) (token : Option Token)
    (destination_id visa_type_id : String) (db : DB) : Except ApiError String × DB :=
  match get_current_admin now token db with
  | .error e => (.error e, db)
  | .ok _ =>
    let db' := { db with
        destinations := updateFirst (fun d => d.id == destination_id)
          (fun d => { d with visa_types := d.visa_types.filter (fun vt => vt.id != visa_type_id) })
          db.destinations }
    (.ok "Tipo de visa eliminado", db')

/-! ## Application routes -/

/-- `POST /applications` (`create_application`).  The route declares only a
`user_id` query parameter and a body — no authentication dependency.  Checks
run in source order: user, then destination, then the enabled flag, then the
visa type; the record is persisted with the model defaults
(`status="pendiente"`, `progress_step=1`, `deposit_paid=0`, `total_paid=0`)
and a price snapshot of the embedded visa type. -/
def create_application (user_id : String) (application_data : ApplicationCreate)
    (fresh_id : String) (now : Nat) (db : DB) : Except ApiError VisaApplication × DB :=
  match db.users.find? (fun u => u.id == user_id) with
  | none => (.error ⟨404, "Usuario no encontrado"⟩, db)
  | some user =>
    match db.destinations.find? (fun d => d.id == application_data.destination_id) with
    | none => (.error ⟨404, "Destino no encontrado"⟩, db)
    | some destination =>
      if !destination.enabled then
        (.error ⟨400, "Este destino no está disponible aún"⟩, db)
      else
        match destination.visa_types.find? (fun vt => vt.id == application_data.visa_type_id) with
        | none => (.error ⟨404, "Tipo de visa no encontrado"⟩, db)
        | some visa_type =>
          let country_of_residence := user.country_of_residence
          let destination_country := destination.country
          let visa_pickup := get_visa_pickup_location destination_country country_of_residence
          let application : VisaApplication :=
            { id := fresh_id, user_id := user_id, user_email := user.email,
              user_name := user.full_name, user_phone := user.phone,
              passport_number := user.passport_number,
              country_of_residence := country_of_residence,
              destination_id := destination.id, destination_country := destination_country,
              visa_type_id := visa_type.id, visa_type_name := visa_type.name,
              price := visa_type.price, deposit_paid := 0, total_paid := 0,
              status := "pendiente", progress_step := 1, documents := [],
              notes := application_data.notes.getD "",   -- Python `application_data.notes or ""`
              admin_notes := "", embassy_location := visa_pickup,
              created_at := now, updated_at := now }
          (.ok application, { db with applications := db.applications ++ [application] })

/-- `GET /applications/{application_id}` (`get_application`). -/
def get_application (application_id : String) (db : DB) : Except ApiError VisaApplication :=
  match db.applications.find? (fun a => a.id == application_id) with
  | none => .error ⟨404, "Solicitud no encontrada"⟩
  | some a => .ok a

/-- `POST /applications/{application_id}/documents` (`upload_document`).  No
token is involved: the route compares the caller-supplied `user_id` query
parameter with the application's owner and fails 403 on mismatch. -/
def upload_document (application_id user_id : String) (doc_data : DocumentUpload)
    (fresh_id : String) (now : Nat) (db : DB) : Except ApiError String × DB :=
  match db.applications.find? (fun a => a.id == application_id) with
  | none => (.error ⟨404, "Solicitud no encontrada"⟩, db)
  | some application =>
    if application.user_id != user_id then (.error ⟨403, "No autorizado"⟩, db)
    else
      let document : DocumentInfo :=
        { id := fresh_id, name := doc_data.file_name, type := doc_data.file_type,
          uploaded_at := now, data := doc_data.file_data }
      let db' := { db with
          applications := updateFirst (fun a => a.id == application_id)
            (fun a => { a with documents := a.documents ++ [document], updated_at := now })
            db.applications }
      (.ok document.id, db')

/-- `DELETE /admin/applications/{application_id}/documents/{document_id}`
(`admin_delete_document`): admin-gated; filters the document list and fails
404 when nothing was removed. -/
def admin_delete_document (now : Nat) (token : Option Token)
    (application_id document_id : String) (db : DB) : Except ApiError String × DB :=
  match get_current_admin now token db with
  | .error e => (.error e, db)
  | .ok _ =>
    match db.applications.find? (fun a => a.id == application_id) with
    | none => (.error ⟨404, "Solicitud no encontrada"⟩, db)
    | some application =>
      let documents := application.documents
      let new_documents := documents.filter (fun d => d.id != document_id)
      if new_documents.length == documents.length then
        (.error ⟨404, "Documento no encontrado"⟩, db)
      else
        let db' := { db with
            applications := updateFirst (fun a => a.id == application_id)
              (fun a => { a with documents := new_documents, updated_at := now })
              db.applications }
        (.ok "Documento eliminado exitosamente", db')

/-- The `$set` document built by `admin_update_application`: `updated_at` is
always included; each of the five patchable fields is included only when the
patch provides it. -/
def applyApplicationUpdate (now : Nat) (update_data : ApplicationUpdate)
    (a : VisaApplication) : VisaApplication :=
  let a := { a with updated_at := now }
  let a := match update_data.status with | some v => { a with status := v } | none => a
  let a := match update_data.progress_step with
           | some v => { a with progress_step := v } | none => a
  let a := match update_data.admin_notes with
           | some v => { a with admin_notes := v } | none => a
  let a := match update_data.deposit_paid with
           | some v => { a with deposit_paid := v } | none => a
  let a := match update_data.total_paid with
           | some v => { a with total_paid := v } | none => a
  a

/-- `PUT /admin/applications/{application_id}` (`admin_update_application`):
admin-gated partial patch, then a read-back of the updated record. -/
def admin_update_application (now : Nat) (token : Option Token) (application_id : String)
    (update_data : ApplicationUpdate) (db : DB) : Except ApiError VisaApplication × DB :=
  match get_current_admin now token db with
  | .error e => (.error e, db)
  | .ok _ =>
    match db.applications.find? (fun a => a.id == application_id) with
    | none => (.error ⟨404, "Solicitud no encontrada"⟩, db)
    | some _ =>
      let db' := { db with
          applications := updateFirst (fun a => a.id == application_id)
            (applyApplicationUpdate now update_data) db.applications }
      match db'.applications.find? (fun a => a.id == application_id) with
      | none => (.error ⟨500, "unreachable"⟩, db')
      | some updated => (.ok updated, db')

/-! ## Admin stats -/

/-- The body of `GET /admin/stats`. -/
structure AdminStats where
  total_applications : Nat
  pending : Nat
  in_review : Nat
  approved : Nat
  rejected : Nat
  completed : Nat
  total_revenue : Int
  pending_revenue : Int
  total_users : Nat
  total_destinations : Nat
  enabled_destinations : Nat
deriving DecidableEq, Repr

/-- The aggregation performed by `admin_get_stats`.  The per-status counts use
`count_documents` (no limit); the two revenue sums iterate over
`find().to_list(1000)`, i.e. over at most the first 1000 application
documents. -/
def statsOf (db : DB) : AdminStats :=
  let applications := db.applications.take 1000
  { total_applications := db.applications.length,
    pending := db.applications.countP (fun a => a.status == "pendiente"),
    in_review := db.applications.countP (fun a => a.status == "revision"),
    approved := db.applications.countP (fun a => a.status == "aprobado"),
    rejected := db.applications.countP (fun a => a.status == "rechazado"),
    completed := db.applications.countP (fun a => a.status == "completado"),
    total_revenue := (applications.map (fun a => a.total_paid)).sum,
    pending_revenue :=
      ((applications.filter (fun a => a.status != "rechazado")).map
        (fun a => a.price - a.total_paid)).sum,
    total_users := db.users.length,
    total_destinations := db.destinations.length,
    enabled_destinations := db.destinations.countP (fun d => d.enabled) }

/-- `GET /admin/stats` (`admin_get_stats`): admin-gated read. -/
def admin_get_stats (now : Nat) (token : Option Token) (db : DB) :
    Except ApiError AdminStats × DB :=
  match get_current_admin now token db with
  | .error e => (.error e, db)
  | .ok _ => (.ok (statsOf db), db)

/-! ## System initialization -/

/-- The superadmin seeded by `POST /setup/init`. -/
def seedAdmin (fresh_id : String) (ts : Nat) : Admin :=
  { id := fresh_id, email := "josemgt91@gmail.com",
    password_hash := get_password_hash "Jmg910217*", full_name := "Jose Manuel",
    is_active := true, is_superadmin := true, created_at := ts, last_login := none }

/-- The destination catalog seeded by `POST /setup/init`. -/
def seedDestinations (ids : Nat → String) (ts : Nat) : List Destination :=
  [ { id := ids 1, country := "Serbia", country_code := "RS", enabled := true,
      image_url := "https://images.unsplash.com/photo-1580480055273-228ff5388ef8?w=400",
      visa_types :=
        [ { id := ids 7, name := "Visado de Turismo", price := 1500, currency := "EUR",
            processing_time := "1-2 meses",
            requirements := "Pasaporte vigente, foto carnet, formulario de solicitud" },
          { id := ids 8, name := "Visado por Contrato de Trabajo", price := 2500,
            currency := "EUR", processing_time := "1-2 meses",
            requirements := "Pasaporte vigente, contrato de trabajo, foto carnet, formulario de solicitud" } ],
      requirements := "Pasaporte vigente mínimo 6 meses, foto carnet reciente, formulario de solicitud completado",
      message := "", created_at := ts },
    { id := ids 2, country := "Armenia", country_code := "AM", enabled := false,
      image_url := "https://images.unsplash.com/photo-1589656966895-2f33e7653819?w=400",
      visa_types := [], requirements := "", message := "Muy pronto disponible",
      created_at := ts },
    { id := ids 3, country := "Georgia", country_code := "GE", enabled := false,
      image_url := "https://images.unsplash.com/photo-1565008576549-57569a49371d?w=400",
      visa_types := [], requirements := "", message := "Muy pronto disponible",
      created_at := ts },
    { id := ids 4, country := "India", country_code := "IN", enabled := false,
      image_url := "https://images.unsplash.com/photo-1524492412937-b28074a5d7da?w=400",
      visa_types := [], requirements := "", message := "Muy pronto disponible",
      created_at := ts },
    { id := ids 5, country := "Dubai", country_code := "AE", enabled := false,
      image_url := "https://images.unsplash.com/photo-1512453979798-5ea266f8880c?w=400",
      visa_types := [], requirements := "", message := "Muy pronto disponible",
      created_at := ts },
    { id := ids 6, country := "Egipto", country_code := "EG", enabled := false,
      image_url := "https://images.unsplash.com/photo-1539768942893-daf53e448371?w=400",
      visa_types := [], requirements := "", message := "Muy pronto disponible",
      created_at := ts } ]

/-- The result body shapes of `POST /setup/init`. -/
inductive InitResult where
  | alreadyInitialized
  | initialized (admin_email : String) (destinations_created : Nat)
deriving DecidableEq, Repr

/-- The per-destination insert loop of `initialize_system`: insert only when
the country code is not yet present. -/
def insertIfNewCode (db : DB) (d : Destination) : DB :=
  match db.destinations.find? (fun e => e.country_code == d.country_code) with
  | some _ => db
  | none => { db with destinations := db.destinations ++ [d] }

/-- `POST /setup/init` (`initialize_system`): a no-op once an admin with the
fixed bootstrap email exists; otherwise seeds the superadmin and the default
destinations.  `ids` supplies the freshly generated uuids, `ts` the creation
timestamp. -/
def initialize_system (ids : Nat → String) (ts : Nat) (db : DB) : InitResult × DB :=
  match db.admins.find? (fun a => a.email == "josemgt91@gmail.com") with
  | some _ => (.alreadyInitialized, db)
  | none =>
    let db1 := { db with admins := db.admins ++ [seedAdmin (ids 0) ts] }
    let dests := seedDestinations ids ts
    let db2 := dests.foldl insertIfNewCode db1
    (.initialized "josemgt91@gmail.com" dests.length, db2)

/-! ## Concrete fixtures used to instantiate the theorems -/

def exAdmin : Admin :=
  { id := "adm1", email := "a@x", password_hash := .bhash "pw", full_name := "A",
    is_active := true, is_superadmin := false, created_at := 0, last_login := none }

/-- A token for `exAdmin`, valid at time 0 (expiry 10). -/
def exToken : Token := .signed (some "a@x") (some "adm1") 10

def exUser : User :=
  { id := "u1", email := "maria@example.com", password_hash := .bhash "pw1",
    full_name := "Maria", phone := "555", passport_number := "P123",
    country_of_residence := "Cuba" }

def exVisaType : VisaType :=
  { id := "v1", name := "Turismo", price := 1500, currency := "EUR",
    processing_time := "1-2 meses", requirements := "" }

def exDestination : Destination :=
  { id := "d1", country := "Serbia", country_code := "RS", enabled := true,
    image_url := "", visa_types := [exVisaType], requirements := "", message := "" }

def exDisabledDestination : Destination :=
  { exDestination with
      id := "d2", country_code := "AM", country := "Armenia", enabled := false }

def exDB : DB :=
  { users := [exUser], admins := [exAdmin],
    destinations := [exDestination, exDisabledDestination], applications := [] }

def exApplication : VisaApplication :=
  { id := "app1", user_id := "u1", user_email := "maria@example.com", user_name := "Maria",
    user_phone := "555", passport_number := "P123", country_of_residence := "Cuba",
    destination_id := "d1", destination_country := "Serbia", visa_type_id := "v1",
    visa_type_name := "Turismo", price := 1500, deposit_paid := 0, total_paid := 0,
    status := "pendiente", progress_step := 1, documents := [], notes := "",
    admin_notes := "", embassy_location := "Embajada de Serbia en La Habana",
    created_at := 0, updated_at := 0 }

def exAppDB : DB := { admins := [exAdmin], applications := [exApplication] }

/-- A legacy user whose stored credential is plaintext. -/
def plainUser : User :=
  { exUser with
      id := "u2", email := "legacy@example.com", password_hash := .plain "secreto1" }

def dbUserPlain : DB := { users := [plainUser] }

/-- A legacy admin whose stored credential is plaintext. -/
def plainAdmin : Admin :=
  { exAdmin with
      id := "adm2", email := "b@x", password_hash := .plain "secreto1" }

def dbAdminPlain : DB := { admins := [plainAdmin] }

/-- A store holding 1001 applications, each with `total_paid = 5` and
`price = 10`: one more than the 1000-document limit of the stats
aggregation read. -/
def appSmall : VisaApplication := { exApplication with total_paid := 5, price := 10 }

def dbManyApps : DB := { admins := [exAdmin], applications := List.replicate 1001 appSmall }

/-- Boolean success test on a response. -/
def isOk : Except ApiError α → Bool
  | .ok _ => true
  | .error _ => false

/-! ## Helper lemmas about `updateFirst` (Mongo `update_one`) -/

theorem updateFirst_eq_self (p : α → Bool) (f : α → α) (l : List α)
    (h : ∀ x ∈ l, p x = true → f x = x) : updateFirst p f l = l := by
  induction l with
  | nil => rfl
  | cons a as ih =>
    by_cases hpa : p a = true
    · simp [updateFirst, hpa, h a (by simp) hpa]
    · simp only [updateFirst, if_neg hpa]
      rw [ih (fun y hy hpy => h y (by simp [hy]) hpy)]

theorem find?_updateFirst (p : α → Bool) (f : α → α)
    (hf : ∀ y, p y = true → p (f y) = true) (l : List α) (x : α)
    (hx : l.find? p = some x) : (updateFirst p f l).find? p = some (f x) := by
  induction l with
  | nil => simp [List.find?] at hx
  | cons a as ih =>
    by_cases hpa : p a = true
    · rw [List.find?_cons_of_pos _ hpa] at hx
      injection hx with hx'
      subst hx'
      simp only [updateFirst, if_pos hpa]
      exact List.find?_cons_of_pos _ (hf a hpa)
    · rw [List.find?_cons_of_neg _ hpa] at hx
      simp only [updateFirst, if_neg hpa]
      rw [List.find?_cons_of_neg _ hpa]
      exact ih hx

theorem map_updateFirst (g : α → β) (p : α → Bool) (f : α → α) (l : List α)
    (h : ∀ x, g (f x) = g x) : (updateFirst p f l).map g = l.map g := by
  induction l with
  | nil => rfl
  | cons a as ih =>
    by_cases hpa : p a = true
    · simp [updateFirst, hpa, h a]
    · simp only [updateFirst, if_neg hpa, List.map_cons, ih]

/-! ## Helper lemmas about `initialize_system` -/

theorem foldl_insertIfNewCode_admins (l : List Destination) (db : DB) :
    (l.foldl insertIfNewCode db).admins = db.admins := by
  induction l generalizing db with
  | nil => rfl
  | cons d ds ih =>
    rw [List.foldl_cons, ih]
    unfold insertIfNewCode
    cases db.destinations.find? (fun e => e.country_code == d.country_code) <;> rfl

/-- After any call to `initialize_system`, an admin with the bootstrap email
is present. -/
theorem initialize_system_admins_found (ids : Nat → String) (ts : Nat) (db : DB) :
    ∃ a, ((initialize_system ids ts db).2).admins.find?
      (fun x => x.email == "josemgt91@gmail.com") = some a := by
  unfold initialize_system
  cases hfind : db.admins.find? (fun a => a.email == "josemgt91@gmail.com") with
  | some a => exact ⟨a, by simp [hfind]⟩
  | none =>
    refine ⟨seedAdmin (ids 0) ts, ?_⟩
    simp only [foldl_insertIfNewCode_admins]
    rw [List.find?_append, hfind]
    rfl

/-- Once the bootstrap admin exists, `initialize_system` is a no-op reporting
"already initialized". -/
theorem initialize_system_of_found (ids : Nat → String) (ts : Nat) (db : DB) (a : Admin)
    (h : db.admins.find? (fun x => x.email == "josemgt91@gmail.com") = some a) :
    initialize_system ids ts db = (.alreadyInitialized, db) := by
  unfold initialize_system
  rw [h]

/-! ## Claim theorems -/

/-- C9: the system-initialization endpoint is idempotent: a first call on an
empty store seeds the default superadmin and destination catalog; every
subsequent call (after any call at all) is a no-op that reports the system as
already initialized and leaves the admin and destination stores unchanged. -/
theorem initialize_system_idempotent (ids1 ids2 : Nat → String) (ts1 ts2 : Nat) (db : DB) :
    initialize_system ids2 ts2 (initialize_system ids1 ts1 db).2 =
      (.alreadyInitialized, (initialize_system ids1 ts1 db).2) ∧
    (initialize_system ids1 ts1 emptyDB).2.admins.map (fun a => (a.email, a.is_superadmin)) =
      [("josemgt91@gmail.com", true)] ∧
    (initialize_system ids1 ts1 emptyDB).2.destinations.map (fun d => d.country_code) =
      ["RS", "AM", "GE", "IN", "AE", "EG"] ∧
    (initialize_system ids1 ts1 emptyDB).1 = .initialized "josemgt91@gmail.com" 6 := by
  obtain ⟨a, ha⟩ := initialize_system_admins_found ids1 ts1 db
  exact ⟨initialize_system_of_found ids2 ts2 _ a ha, rfl, rfl, rfl⟩

/-- C7: the computed pickup/embassy location is the fixed e-visa notice
whenever the destination country belongs to the fixed e-visa country set
(regardless of residence); otherwise the embassy-table entry for the
residence country; otherwise the fixed default "consult nearest embassy"
string when the residence country has no table entry. -/
theorem pickup_location_spec (destination_country user_residence : String)
    (kv : String × String) :
    (EVISA_COUNTRIES.contains destination_country = true →
      get_visa_pickup_location destination_country user_residence =
        "E-Visa (Electrónica - No requiere recogida física)") ∧
    (EVISA_COUNTRIES.contains destination_country = false →
      EMBASSIES.find? (fun e => e.1 == user_residence) = some kv →
      get_visa_pickup_location destination_country user_residence = kv.2) ∧
    (EVISA_COUNTRIES.contains destination_country = false →
      EMBASSIES.find? (fun e => e.1 == user_residence) = none →
      get_visa_pickup_location destination_country user_residence =
        "Consultar Embajada más cercana") := by
  refine ⟨fun h1 => ?_, fun h1 h2 => ?_, fun h1 h2 => ?_⟩
  · unfold get_visa_pickup_location
    rw [h1]
    rfl
  · unfold get_visa_pickup_location dictGet
    rw [h1, h2]
    rfl
  · unfold get_visa_pickup_location dictGet
    rw [h1, h2]
    rfl

/-- Witness for C7: an e-visa destination, a tabulated residence, and an
untabulated residence. -/
theorem pickup_location_spec_witness :
    get_visa_pickup_location "Georgia" "Cuba" =
      "E-Visa (Electrónica - No requiere recogida física)" ∧
    get_visa_pickup_location "Serbia" "Rusia" = "Embajada de Serbia en Moscú" ∧
    get_visa_pickup_location "Serbia" "Francia" = "Consultar Embajada más cercana" :=
  ⟨(pickup_location_spec "Georgia" "Cuba" ("", "")).1 (by decide),
   (pickup_location_spec "Serbia" "Rusia"
      ("Rusia", "Embajada de Serbia en Moscú")).2.1 (by decide) (by decide),
   (pickup_location_spec "Serbia" "Francia" ("", "")).2.2 (by decide) (by decide)⟩

/-- C2: for every existing user, enabled destination and visa type present in
its embedded list, `create_application` succeeds, appends exactly one record,
and that record has `status="pendiente"`, `progress_step=1`,
`deposit_paid=0`, `total_paid=0` and `price` equal to the selected visa
type's price at creation time. -/
theorem create_application_success (db : DB) (uid fid : String) (now : Nat)
    (data : ApplicationCreate) (user : User) (destination : Destination)
    (visa_type : VisaType)
    (hu : db.users.find? (fun u => u.id == uid) = some user)
    (hd : db.destinations.find? (fun d => d.id == data.destination_id) = some destination)
    (hen : destination.enabled = true)
    (hv : destination.visa_types.find? (fun vt => vt.id == data.visa_type_id) = some visa_type) :
    ∃ app : VisaApplication,
      create_application uid data fid now db =
        (.ok app, { db with applications := db.applications ++ [app] }) ∧
      app.status = "pendiente" ∧ app.progress_step = 1 ∧ app.deposit_paid = 0 ∧
      app.total_paid = 0 ∧ app.price = visa_type.price := by
  simp only [create_application, hu, hd, hen, hv, Bool.not_true, Bool.false_eq_true,
    if_false]
  exact ⟨_, rfl, rfl, rfl, rfl, rfl, rfl⟩

/-- Witness for C2 on the concrete store `exDB`. -/
theorem create_application_success_witness :
    ∃ app : VisaApplication,
      create_application "u1" ⟨"d1", "v1", some ""⟩ "a1" 5 exDB =
        (.ok app, { exDB with applications := exDB.applications ++ [app] }) ∧
      app.status = "pendiente" ∧ app.progress_step = 1 ∧ app.deposit_paid = 0 ∧
      app.total_paid = 0 ∧ app.price = exVisaType.price :=
  create_application_success exDB "u1" "a1" 5 ⟨"d1", "v1", some ""⟩ exUser
    exDestination exVisaType rfl rfl rfl rfl

/-- C3: `create_application` resolves in source order — user `NotFound`
first, then destination `NotFound`, then the enabled check
(`DestinationDisabled`, HTTP 400), then `VisaTypeNotFound` — and every
failure leaves the application store (indeed the whole store) unchanged. -/
theorem create_application_failure_order (db : DB) (uid fid : String) (now : Nat)
    (data : ApplicationCreate) :
    (db.users.find? (fun u => u.id == uid) = none →
      create_application uid data fid now db =
        (.error ⟨404, "Usuario no encontrado"⟩, db)) ∧
    (∀ user, db.users.find? (fun u => u.id == uid) = some user →
      db.destinations.find? (fun d => d.id == data.destination_id) = none →
      create_application uid data fid now db =
        (.error ⟨404, "Destino no encontrado"⟩, db)) ∧
    (∀ user destination, db.users.find? (fun u => u.id == uid) = some user →
      db.destinations.find? (fun d => d.id == data.destination_id) = some destination →
      destination.enabled = false →
      create_application uid data fid now db =
        (.error ⟨400, "Este destino no está disponible aún"⟩, db)) ∧
    (∀ user destination, db.users.find? (fun u => u.id == uid) = some user →
      db.destinations.find? (fun d => d.id == data.destination_id) = some destination →
      destination.enabled = true →
      destination.visa_types.find? (fun vt => vt.id == data.visa_type_id) = none →
      create_application uid data fid now db =
        (.error ⟨404, "Tipo de visa no encontrado"⟩, db)) := by
  refine ⟨fun h1 => ?_, fun user h1 h2 => ?_, fun user destination h1 h2 h3 => ?_,
    fun user destination h1 h2 h3 h4 => ?_⟩
  · simp [create_application, h1]
  · simp [create_application, h1, h2]
  · simp [create_application, h1, h2, h3]
  · simp [create_application, h1, h2, h3, h4]

/-- Witness for C3: on `exDB`, creating against the disabled destination
`d2` fails with 400 and leaves the store unchanged. -/
theorem create_application_failure_order_witness :
    create_application "u1" ⟨"d2", "v1", some ""⟩ "a1" 5 exDB =
      (.error ⟨400, "Este destino no está disponible aún"⟩, exDB) :=
  (create_application_failure_order exDB "u1" "a1" 5 ⟨"d2", "v1", some ""⟩).2.2.1
    exUser exDisabledDestination rfl rfl rfl

/-- C4: `admin_update_application` changes exactly the patched fields among
status/progress_step/admin_notes/deposit_paid/total_paid plus `updated_at`
(always refreshed); every other field — price, documents, notes and all
snapshot fields — is left unchanged, and a follow-up `get_application` reads
back exactly the patched record. -/
theorem admin_update_application_frame (now : Nat) (token : Option Token) (db : DB)
    (application_id : String) (update_data : ApplicationUpdate) (adm : Admin)
    (app : VisaApplication)
    (hadm : get_current_admin now token db = .ok adm)
    (happ : db.applications.find? (fun a => a.id == application_id) = some app) :
    admin_update_application now token application_id update_data db =
      (.ok (applyApplicationUpdate now update_data app),
       { db with
           applications := updateFirst (fun a => a.id == application_id)
             (applyApplicationUpdate now update_data) db.applications }) ∧
    get_application application_id
        (admin_update_application now token application_id update_data db).2 =
      .ok (applyApplicationUpdate now update_data app) ∧
    (applyApplicationUpdate now update_data app).status =
      update_data.status.getD app.status ∧
    (applyApplicationUpdate now update_data app).deposit_paid =
      update_data.deposit_paid.getD app.deposit_paid ∧
    (applyApplicationUpdate now update_data app).total_paid =
      update_data.total_paid.getD app.total_paid ∧
    (applyApplicationUpdate now update_data app).price = app.price ∧
    (applyApplicationUpdate now update_data app).progress_step =
      update_data.progress_step.getD app.progress_step ∧
    (applyApplicationUpdate now update_data app).admin_notes =
      update_data.admin_notes.getD app.admin_notes ∧
    (applyApplicationUpdate now update_data app).updated_at = now ∧
    (applyApplicationUpdate now update_data app).documents = app.documents ∧
    (applyApplicationUpdate now update_data app).notes = app.notes ∧
    (applyApplicationUpdate now update_data app).id = app.id ∧
    (applyApplicationUpdate now update_data app).user_id = app.user_id ∧
    (applyApplicationUpdate now update_data app).user_email = app.user_email ∧
    (applyApplicationUpdate now update_data app).user_name = app.user_name ∧
    (applyApplicationUpdate now update_data app).user_phone = app.user_phone ∧
    (applyApplicationUpdate now update_data app).passport_number = app.passport_number ∧
    (applyApplicationUpdate now update_data app).country_of_residence =
      app.country_of_residence ∧
    (applyApplicationUpdate now update_data app).destination_id = app.destination_id ∧
    (applyApplicationUpdate now update_data app).destination_country =
      app.destination_country ∧
    (applyApplicationUpdate now update_data app).visa_type_id = app.visa_type_id ∧
    (applyApplicationUpdate now update_data app).visa_type_name = app.visa_type_name ∧
    (applyApplicationUpdate now update_data app).embassy_location =
      app.embassy_location ∧
    (applyApplicationUpdate now update_data app).created_at = app.created_at := by
  have hid : ∀ a : VisaApplication, (applyApplicationUpdate now update_data a).id = a.id := by
    intro a
    rcases update_data with ⟨s, ps, an, dp, tp⟩
    unfold applyApplicationUpdate
    cases s <;> cases ps <;> cases an <;> cases dp <;> cases tp <;> rfl
  have hfind := find?_updateFirst (fun a => a.id == application_id)
    (applyApplicationUpdate now update_data)
    (fun y hy => by simp only [hid y]; exact hy) db.applications app happ
  have hmain : admin_update_application now token application_id update_data db =
      (.ok (applyApplicationUpdate now update_data app),
       { db with
           applications := updateFirst (fun a => a.id == application_id)
             (applyApplicationUpdate now update_data) db.applications }) := by
    simp only [admin_update_application, hadm, happ, hfind]
  refine ⟨hmain, ?_, ?_⟩
  · rw [hmain]
    simp only [get_application, hfind]
  · rcases update_data with ⟨s, ps, an, dp, tp⟩
    cases s <;> cases ps <;> cases an <;> cases dp <;> cases tp <;>
      simp [applyApplicationUpdate, Option.getD]

/-- Witness for C4: the spec's example patch
`{status := "revision", deposit_paid := 750}` on the concrete store. -/
theorem admin_update_application_frame_witness :
    get_application "app1"
        (admin_update_application 9 (some exToken) "app1"
          ⟨some "revision", none, none, some 750, none⟩ exAppDB).2 =
      .ok (applyApplicationUpdate 9 ⟨some "revision", none, none, some 750, none⟩
            exApplication) ∧
    (applyApplicationUpdate 9 ⟨some "revision", none, none, some 750, none⟩
        exApplication).status = "revision" ∧
    (applyApplicationUpdate 9 ⟨some "revision", none, none, some 750, none⟩
        exApplication).deposit_paid = 750 ∧
    (applyApplicationUpdate 9 ⟨some "revision", none, none, some 750, none⟩
        exApplication).price = exApplication.price ∧
    (applyApplicationUpdate 9 ⟨some "revision", none, none, some 750, none⟩
        exApplication).total_paid = exApplication.total_paid := by
  have h := admin_update_application_frame 9 (some exToken) exAppDB "app1"
    ⟨some "revision", none, none, some 750, none⟩ exAdmin exApplication rfl rfl
  exact ⟨h.2.1, (h.2.2.1).trans rfl, (h.2.2.2.1).trans rfl, h.2.2.2.2.2.1,
    (h.2.2.2.2.1).trans rfl⟩

/-- C1 counterexample: `create_application` and `update_user` declare no
authentication dependency at all — no token appears anywhere in their
signatures, faithful to the source routes — yet both succeed on the concrete
store `exDB`, so neither rejects a token-less call with `Unauthorized`. -/
theorem no_token_required_cex :
    isOk (create_application "u1" ⟨"d1", "v1", some ""⟩ "a1" 5 exDB).1 = true ∧
    isOk (update_user "u1" ⟨some "Maria G", none, none, none⟩ exDB).1 = true :=
  ⟨rfl, rfl⟩

/-- C1 (amended): operations guarded by `get_current_admin` reject a missing,
malformed, or expired token with 401, and the superadmin-only
`admin_register` rejects a valid non-superadmin token with 403; but
`create_application` and `update_user` perform no token check at all, and
`upload_document` enforces only that the caller-supplied `user_id` equals the
application's owner, failing 403 on mismatch, without any token. -/
theorem auth_gate_amended (now : Nat) (db : DB) (application_id user_id fid : String)
    (update_data : ApplicationUpdate) (doc : DocumentUpload)
    (app : VisaApplication) (adm : Admin) (admin_data : AdminCreate)
    (token : Option Token) (ts : Nat) :
    (admin_update_application now none application_id update_data db =
      (.error ⟨401, "Not authenticated"⟩, db)) ∧
    (admin_update_application now (some .invalid) application_id update_data db =
      (.error ⟨401, "No se pudieron validar las credenciales"⟩, db)) ∧
    (∀ sub aid exp, exp ≤ now →
      admin_update_application now (some (.signed sub aid exp)) application_id
          update_data db =
        (.error ⟨401, "No se pudieron validar las credenciales"⟩, db)) ∧
    (get_current_admin now token db = .ok adm → adm.is_superadmin = false →
      admin_register now token admin_data fid ts db =
        (.error ⟨403, "Solo superadmin puede crear administradores"⟩, db)) ∧
    (db.applications.find? (fun a => a.id == application_id) = some app →
      app.user_id ≠ user_id →
      upload_document application_id user_id doc fid now db =
        (.error ⟨403, "No autorizado"⟩, db)) := by
  refine ⟨rfl, rfl, fun sub aid exp hexp => ?_, fun hadm hsup => ?_,
    fun happ hne => ?_⟩
  · simp [admin_update_application, get_current_admin, hexp]
  · simp [admin_register, hadm, hsup]
  · simp [upload_document, happ, bne_iff_ne, hne]

/-- Witness for C1 amended: a token-less admin call fails 401; a document
upload by a non-owner fails 403. -/
theorem auth_gate_amended_witness :
    admin_update_application 0 none "app1" ⟨none, none, none, none, none⟩ exAppDB =
      (.error ⟨401, "Not authenticated"⟩, exAppDB) ∧
    upload_document "app1" "intruder" ⟨"f.pdf", "application/pdf", "AAAA"⟩ "doc1" 3 exAppDB =
      (.error ⟨403, "No autorizado"⟩, exAppDB) := by
  have h := auth_gate_amended 0 exAppDB "app1" "intruder" "doc1"
    ⟨none, none, none, none, none⟩ ⟨"f.pdf", "application/pdf", "AAAA"⟩
    exApplication exAdmin ⟨"e@x", "p", "N"⟩ (some exToken) 0
  exact ⟨h.1, h.2.2.2.2 rfl (by decide)⟩

/-- C5 counterexample: an admin whose stored credential is plaintext logs in
successfully, but the stored credential is not re-hashed — `admin_login`
performs no migration for the Admin principal kind, refuting the claim that
every principal kind migrates on a successful plaintext match. -/
theorem admin_login_no_migration_cex :
    isOk (admin_login ⟨"b@x", "secreto1"⟩ 7 dbAdminPlain).1 = true ∧
    (admin_login ⟨"b@x", "secreto1"⟩ 7 dbAdminPlain).2.admins.map
      (fun a => a.password_hash) = [.plain "secreto1"] :=
  ⟨rfl, rfl⟩

/-- C5 (amended): credential verification supports both stored formats for
both principal kinds; on a successful plaintext match End-User login
re-hashes and persists the credential (when the stored value does not carry
the `$2` bcrypt marker) and never downgrades a hashed one; Admin login
verifies a plaintext credential but never migrates it. -/
theorem credential_verification_amended (db adb : DB) (credentials : UserLogin)
    (user : User) (s pw : String) (acreds : AdminLogin) (admin : Admin) (now : Nat) :
    (verify_password credentials.password (.plain s) = (credentials.password == s)) ∧
    (verify_password credentials.password (.bhash pw) = (credentials.password == pw)) ∧
    (db.users.find? (fun u => u.email == credentials.email) = some user →
      user.password_hash = .plain s → startsWithD2 s = false →
      credentials.password = s →
      login_user credentials db =
        (.ok user,
         { db with
             users := updateFirst (fun u => u.id == user.id)
               (fun u => { u with password_hash := .bhash s }) db.users })) ∧
    (db.users.find? (fun u => u.email == credentials.email) = some user →
      user.password_hash = .bhash pw → credentials.password = pw →
      login_user credentials db = (.ok user, db)) ∧
    (adb.admins.find? (fun a => a.email == acreds.email) = some admin →
      admin.password_hash = .plain s → acreds.password = s →
      isOk (admin_login acreds now adb).1 = true ∧
      (admin_login acreds now adb).2.admins.map (fun a => a.password_hash) =
        adb.admins.map (fun a => a.password_hash)) := by
  refine ⟨rfl, rfl, fun hfind hph hsw hs => ?_, fun hfind hph hs => ?_,
    fun hfind hph hs => ?_⟩
  · simp [login_user, hfind, hph, hs, verify_password, StoredCred.startsWithDollar2,
      StoredCred.eqLiteral, hsw, migrate_user_password, get_password_hash]
  · simp [login_user, hfind, hph, hs, verify_password, StoredCred.startsWithDollar2,
      StoredCred.eqLiteral]
  · constructor
    · simp [admin_login, hfind, hph, hs, verify_password, isOk]
    · simp only [admin_login, hfind, hph, hs]
      simp [verify_password]
      exact map_updateFirst _ _ _ _ (fun x => rfl)

/-- Witness for C5 amended: a legacy End User is migrated on login; a legacy
admin is verified but keeps the plaintext credential. -/
theorem credential_verification_amended_witness :
    login_user ⟨"legacy@example.com", "secreto1"⟩ dbUserPlain =
      (.ok plainUser,
       { dbUserPlain with
           users := updateFirst (fun u => u.id == plainUser.id)
             (fun u => { u with password_hash := .bhash "secreto1" })
             dbUserPlain.users }) ∧
    (isOk (admin_login ⟨"b@x", "secreto1"⟩ 7 dbAdminPlain).1 = true ∧
     (admin_login ⟨"b@x", "secreto1"⟩ 7 dbAdminPlain).2.admins.map
       (fun a => a.password_hash) =
       dbAdminPlain.admins.map (fun a => a.password_hash)) := by
  have h := credential_verification_amended dbUserPlain dbAdminPlain
    ⟨"legacy@example.com", "secreto1"⟩ plainUser "secreto1" "pw"
    ⟨"b@x", "secreto1"⟩ plainAdmin 7
  exact ⟨h.2.2.1 rfl rfl (by decide) rfl, h.2.2.2.2 rfl rfl rfl⟩

/-- C6 counterexample: removing an absent document id is NOT a no-op
success — `admin_delete_document` fails 404 "Documento no encontrado"
(the concrete application holds no document with id "docX"). -/
theorem delete_document_absent_cex :
    admin_delete_document 0 (some exToken) "app1" "docX" exAppDB =
      (.error ⟨404, "Documento no encontrado"⟩, exAppDB) := rfl

/-- C6 (amended): for an absent visa-type id, `update_visa_type` and
`delete_visa_type` return success with the store unchanged (no-op success);
but removing an absent document id from an application fails 404, also
leaving the store unchanged. -/
theorem nested_noop_amended (now : Nat) (token : Option Token) (db : DB)
    (destination_id visa_type_id application_id document_id : String)
    (visa_data : VisaTypeInput) (adm : Admin) (destination : Destination)
    (app : VisaApplication) :
    (get_current_admin now token db = .ok adm →
      db.destinations.find? (fun d => d.id == destination_id) = some destination →
      (∀ d ∈ db.destinations, d.id = destination_id →
        ∀ vt ∈ d.visa_types, vt.id ≠ visa_type_id) →
      update_visa_type now token destination_id visa_type_id visa_data db =
        (.ok "Tipo de visa actualizado", db)) ∧
    (get_current_admin now token db = .ok adm →
      (∀ d ∈ db.destinations, d.id = destination_id →
        ∀ vt ∈ d.visa_types, vt.id ≠ visa_type_id) →
      delete_visa_type now token destination_id visa_type_id db =
        (.ok "Tipo de visa eliminado", db)) ∧
    (get_current_admin now token db = .ok adm →
      db.applications.find? (fun a => a.id == application_id) = some app →
      (∀ doc ∈ app.documents, doc.id ≠ document_id) →
      admin_delete_document now token application_id document_id db =
        (.error ⟨404, "Documento no encontrado"⟩, db)) := by
  refine ⟨fun hadm hdest hno => ?_, fun hadm hno => ?_, fun hadm happ hno => ?_⟩
  · simp only [update_visa_type, hadm, hdest]
    rw [updateFirst_eq_self]
    intro x hx hpx
    exfalso
    simp only [Bool.and_eq_true, beq_iff_eq, List.any_eq_true] at hpx
    obtain ⟨h1, vt, hvt, h2⟩ := hpx
    exact hno x hx h1 vt hvt h2
  · simp only [delete_visa_type, hadm]
    rw [updateFirst_eq_self]
    intro x hx hpx
    have hxid : x.id = destination_id := by simpa using hpx
    have hfl : x.visa_types.filter (fun vt => vt.id != visa_type_id) = x.visa_types :=
      List.filter_eq_self.mpr (fun vt hvt => by simpa using hno x hx hxid vt hvt)
    rw [hfl]
  · have hfl : app.documents.filter (fun d => d.id != document_id) = app.documents :=
      List.filter_eq_self.mpr (fun d hd => by simpa using hno d hd)
    simp [admin_delete_document, hadm, happ, hfl]

/-- Witness for C6 amended: a missing visa-type id is silently accepted by
both visa-type mutators; a missing document id is rejected with 404. -/
theorem nested_noop_amended_witness :
    update_visa_type 0 (some exToken) "d1" "vX"
        ⟨"Nuevo", 999, "EUR", "1 mes", ""⟩ exDB = (.ok "Tipo de visa actualizado", exDB) ∧
    delete_visa_type 0 (some exToken) "d1" "vX" exDB =
      (.ok "Tipo de visa eliminado", exDB) ∧
    admin_delete_document 0 (some exToken) "app1" "docX" exAppDB =
      (.error ⟨404, "Documento no encontrado"⟩, exAppDB) := by
  have h1 := nested_noop_amended 0 (some exToken) exDB "d1" "vX" "app1" "docX"
    ⟨"Nuevo", 999, "EUR", "1 mes", ""⟩ exAdmin exDestination exApplication
  have h2 := nested_noop_amended 0 (some exToken) exAppDB "d1" "vX" "app1" "docX"
    ⟨"Nuevo", 999, "EUR", "1 mes", ""⟩ exAdmin exDestination exApplication
  exact ⟨h1.1 rfl rfl (by decide), h1.2.1 rfl (by decide), h2.2.2 rfl rfl (by decide)⟩

/-- A successful `create_application` appends exactly one record to the
application store. -/
theorem create_application_ok_apps (user_id : String) (data : ApplicationCreate)
    (fid : String) (now : Nat) (db db2 : DB) (app : VisaApplication)
    (h : create_application user_id data fid now db = (.ok app, db2)) :
    db2.applications = db.applications ++ [app] := by
  unfold create_application at h
  split at h
  · simp at h
  · split at h
    · simp at h
    · split at h
      · simp at h
      · split at h
        · simp at h
        · simp only [Prod.mk.injEq, Except.ok.injEq] at h
          obtain ⟨h1, h2⟩ := h
          subst h1
          rw [← h2]

/-- C8 counterexample: with 1001 stored applications, each with
`total_paid = 5`, the stats endpoint reports `total_applications = 1001` but
`total_revenue = 5000`: the revenue aggregation reads at most the first 1000
documents (`find().to_list(1000)`), so `total_revenue` is not the sum of
`total_paid` over all applications (5005). -/
theorem stats_truncation_cex :
    (admin_get_stats 0 (some exToken) dbManyApps).1 = .ok (statsOf dbManyApps) ∧
    (statsOf dbManyApps).total_applications = 1001 ∧
    (statsOf dbManyApps).total_revenue = 5000 ∧
    (dbManyApps.applications.map (fun a => a.total_paid)).sum = 5005 ∧
    (statsOf dbManyApps).total_revenue ≠
      (dbManyApps.applications.map (fun a => a.total_paid)).sum := by
  have hmap : (List.replicate 1001 appSmall).map (fun a => a.total_paid) =
      List.replicate 1001 (5 : Int) := by
    rw [List.map_replicate, show appSmall.total_paid = (5 : Int) from rfl]
  have h1 : (statsOf dbManyApps).total_revenue = 5000 := by
    rw [show (statsOf dbManyApps).total_revenue =
        (((List.replicate 1001 appSmall).take 1000).map (fun a => a.total_paid)).sum
      from rfl]
    rw [List.take_replicate, show ((1000 : Nat) ⊓ 1001) = 1000 by norm_num,
      List.map_replicate, show appSmall.total_paid = (5 : Int) from rfl]
    norm_num [List.sum_replicate]
  have h2 : (dbManyApps.applications.map (fun a => a.total_paid)).sum = 5005 := by
    rw [show dbManyApps.applications = List.replicate 1001 appSmall from rfl, hmap]
    norm_num [List.sum_replicate]
  refine ⟨rfl, ?_, h1, h2, ?_⟩
  · rw [show (statsOf dbManyApps).total_applications =
        (List.replicate 1001 appSmall).length from rfl, List.length_replicate]
  · rw [h1, h2]
    decide

/-- C8 (amended): the admin stats report `total_applications` equal to the
number of stored applications (so a successful `create_application`
increments it by exactly 1); `total_revenue` equals the sum of `total_paid`
over the first 1000 stored applications (hence over all applications whenever
the store holds at most 1000); and `pending_revenue` equals the sum of
`price - total_paid` over the non-rejected applications among those first
1000. -/
theorem admin_stats_amended (now : Nat) (token : Option Token) (db : DB) (adm : Admin)
    (hadm : get_current_admin now token db = .ok adm) :
    admin_get_stats now token db = (.ok (statsOf db), db) ∧
    (statsOf db).total_applications = db.applications.length ∧
    (statsOf db).total_revenue =
      ((db.applications.take 1000).map (fun a => a.total_paid)).sum ∧
    (statsOf db).pending_revenue =
      (((db.applications.take 1000).filter (fun a => a.status != "rechazado")).map
        (fun a => a.price - a.total_paid)).sum ∧
    (db.applications.length ≤ 1000 →
      (statsOf db).total_revenue = (db.applications.map (fun a => a.total_paid)).sum) ∧
    (∀ uid data fid ts app db2,
      create_application uid data fid ts db = (.ok app, db2) →
      (statsOf db2).total_applications = (statsOf db).total_applications + 1) := by
  refine ⟨by simp [admin_get_stats, hadm], rfl, rfl, rfl, fun hlen => ?_,
    fun uid data fid ts app db2 hc => ?_⟩
  · simp [statsOf, List.take_of_length_le hlen]
  · have h2 := create_application_ok_apps uid data fid ts db db2 app hc
    simp [statsOf, h2]

/-- Witness for C8 amended: on the concrete one-application store, the stats
are computed exactly, and creating one more application increments
`total_applications` to 2. -/
theorem admin_stats_amended_witness :
    admin_get_stats 0 (some exToken) exAppDB = (.ok (statsOf exAppDB), exAppDB) ∧
    (statsOf exAppDB).total_applications = 1 ∧
    (statsOf exAppDB).pending_revenue = 1500 - exApplication.total_paid := by
  have h := admin_stats_amended 0 (some exToken) exAppDB exAdmin rfl
  exact ⟨h.1, h.2.1.trans rfl, (h.2.2.2.1).trans (by decide)⟩

/-- The `DestinationUpdate` patch model has no `country_code` field, so the
patch application never changes the code. -/
theorem applyDestinationUpdate_country_code (ud : DestinationUpdate) (d : Destination) :
    (applyDestinationUpdate ud d).country_code = d.country_code := by
  rcases ud with ⟨c, e, i, r, m⟩
  unfold applyDestinationUpdate
  cases c <;> cases e <;> cases i <;> cases r <;> cases m <;> rfl

theorem update_destination_codes (now : Nat) (token : Option Token) (did : String)
    (ud : DestinationUpdate) (db : DB) :
    ((update_destination now token did ud db).2).destinations.map (fun d => d.country_code) =
      db.destinations.map (fun d => d.country_code) := by
  unfold update_destination
  cases get_current_admin now token db with
  | error e => rfl
  | ok a =>
    cases db.destinations.find? (fun d => d.id == did) with
    | none => rfl
    | some d0 =>
      simp only []
      by_cases hu : (ud.country.isSome || ud.enabled.isSome || ud.image_url.isSome ||
          ud.requirements.isSome || ud.message.isSome) = true
      · rw [if_pos hu]
        cases (updateFirst (fun d => d.id == did) (applyDestinationUpdate ud)
            db.destinations).find? (fun d => d.id == did) with
        | none =>
          exact map_updateFirst _ _ _ db.destinations
            (fun x => applyDestinationUpdate_country_code ud x)
        | some u =>
          exact map_updateFirst _ _ _ db.destinations
            (fun x => applyDestinationUpdate_country_code ud x)
      · rw [if_neg hu]
        cases db.destinations.find? (fun d => d.id == did) with
        | none => rfl
        | some u => rfl

theorem add_visa_type_codes (now : Nat) (token : Option Token) (did : String)
    (vd : VisaTypeInput) (fid : String) (db : DB) :
    ((add_visa_type now token did vd fid db).2).destinations.map (fun d => d.country_code) =
      db.destinations.map (fun d => d.country_code) := by
  unfold add_visa_type
  cases get_current_admin now token db with
  | error e => rfl
  | ok a =>
    cases db.destinations.find? (fun d => d.id == did) with
    | none => rfl
    | some d0 => exact map_updateFirst _ _ _ db.destinations (fun x => rfl)

theorem update_visa_type_codes (now : Nat) (token : Option Token) (did vtid : String)
    (vd : VisaTypeInput) (db : DB) :
    ((update_visa_type now token did vtid vd db).2).destinations.map (fun d => d.country_code) =
      db.destinations.map (fun d => d.country_code) := by
  unfold update_visa_type
  cases get_current_admin now token db with
  | error e => rfl
  | ok a =>
    cases db.destinations.find? (fun d => d.id == did) with
    | none => rfl
    | some d0 => exact map_updateFirst _ _ _ db.destinations (fun x => rfl)

theorem delete_visa_type_codes (now : Nat) (token : Option Token) (did vtid : String)
    (db : DB) :
    ((delete_visa_type now token did vtid db).2).destinations.map (fun d => d.country_code) =
      db.destinations.map (fun d => d.country_code) := by
  unfold delete_visa_type
  cases get_current_admin now token db with
  | error e => rfl
  | ok a => exact map_updateFirst _ _ _ db.destinations (fun x => rfl)

/-- C10: every destination created through `create_destination` is stored
with its country code uppercased; no destination-mutating operation
(`update_destination`, `add_visa_type`, `update_visa_type`,
`delete_visa_type`) can change any stored country code — the patch model has
no such field; and `get_destination_by_country`, which uppercases its
argument, finds the created destination whatever case the caller uses. -/
theorem country_code_uppercase_invariant (now : Nat) (token : Option Token) (db : DB)
    (dest_data : DestinationCreate) (fresh_id : String) (adm : Admin)
    (hadm : get_current_admin now token db = .ok adm)
    (hdup : db.destinations.find?
      (fun d => d.country_code == dest_data.country_code.toUpper) = none) :
    (∃ destination,
      create_destination now token dest_data fresh_id db =
        (.ok destination, { db with destinations := db.destinations ++ [destination] }) ∧
      destination.country_code = dest_data.country_code.toUpper ∧
      (∀ s : String, s.toUpper = dest_data.country_code.toUpper →
        get_destination_by_country s
            (create_destination now token dest_data fresh_id db).2 = .ok destination)) ∧
    (∀ (db2 : DB) (did : String) (ud : DestinationUpdate),
      ((update_destination now token did ud db2).2).destinations.map
          (fun d => d.country_code) =
        db2.destinations.map (fun d => d.country_code)) ∧
    (∀ (db2 : DB) (did : String) (vd : VisaTypeInput) (fid2 : String),
      ((add_visa_type now token did vd fid2 db2).2).destinations.map
          (fun d => d.country_code) =
        db2.destinations.map (fun d => d.country_code)) ∧
    (∀ (db2 : DB) (did vtid : String) (vd : VisaTypeInput),
      ((update_visa_type now token did vtid vd db2).2).destinations.map
          (fun d => d.country_code) =
        db2.destinations.map (fun d => d.country_code)) ∧
    (∀ (db2 : DB) (did vtid : String),
      ((delete_visa_type now token did vtid db2).2).destinations.map
          (fun d => d.country_code) =
        db2.destinations.map (fun d => d.country_code)) := by
  refine ⟨?_, fun db2 did ud => update_destination_codes now token did ud db2,
    fun db2 did vd fid2 => add_visa_type_codes now token did vd fid2 db2,
    fun db2 did vtid vd => update_visa_type_codes now token did vtid vd db2,
    fun db2 did vtid => delete_visa_type_codes now token did vtid db2⟩
  simp only [create_destination, hadm, hdup]
  refine ⟨_, rfl, rfl, fun s hs => ?_⟩
  simp only [get_destination_by_country, hs]
  rw [List.find?_append, hdup]
  simp [List.find?]

/-- Witness for C10: creating "Serbia" with lowercase code "rs" stores "RS"
and is found through a lowercase lookup. -/
theorem country_code_uppercase_invariant_witness :
    ∃ destination,
      create_destination 0 (some exToken) ⟨"Serbia", "rs", true, "", "", ""⟩ "d9" exAppDB =
        (.ok destination,
         { exAppDB with destinations := exAppDB.destinations ++ [destination] }) ∧
      destination.country_code =
        (DestinationCreate.country_code ⟨"Serbia", "rs", true, "", "", ""⟩).toUpper ∧
      (∀ s : String,
        s.toUpper = (DestinationCreate.country_code ⟨"Serbia", "rs", true, "", "", ""⟩).toUpper →
        get_destination_by_country s
            (create_destination 0 (some exToken) ⟨"Serbia", "rs", true, "", "", ""⟩
              "d9" exAppDB).2 = .ok destination) :=
  (country_code_uppercase_invariant 0 (some exToken) exAppDB
    ⟨"Serbia", "rs", true, "", "", ""⟩ "d9" exAdmin rfl rfl).1

end CubaVisa
